import Mathlib

/-!
Shallow embedding of the ticket issuance / NFT minting pipeline of the
event-admin repository (HTTP handlers over a record store).

Conventions of the embedding:
* The record store ("tickets" and "mint_queue" tables) is passed explicitly
  as lists of rows; a handler is a pure function from its inputs and the
  store to the new store and its HTTP response.
* Database-generated identifiers (`crypto.randomUUID()` for tickets, the
  queue's row id) are modelled as fresh natural numbers supplied by a
  `base` parameter: distinct rows receive distinct ids.
* Timestamps (`new Date().toISOString()`) are abstract naturals.
* A single bulk `insert` of several rows is one statement at the store and
  is all-or-nothing: it either appends every row or fails leaving the
  store unchanged.  A fallible external step (database insert, queue
  insert, blockchain transaction) is modelled by a boolean flag saying
  whether that step succeeds on this run.
-/

namespace TicketingDB

/-- Value of a metadata attribute: the source mixes numbers
(`value: ticketNumber`) and strings (`value: event.event_name`). -/
inductive AttrValue
  | nat (n : Nat)
  | str (s : String)
  deriving DecidableEq, Repr

/-- One `{trait_type, value}` entry of an NFT metadata attribute list. -/
structure Attribute where
  trait_type : String
  value : AttrValue
  deriving DecidableEq, Repr

/-- NFT metadata document `{name, description, image, attributes}`. -/
structure NftMetadata where
  name : String
  description : String
  image : String
  attributes : List Attribute
  deriving DecidableEq, Repr

/-- `nft_mint_status` of a ticket row. -/
inductive MintStatus
  | pending
  | minted
  | failed
  | transferred
  deriving DecidableEq, Repr

/-- A row of the `tickets` table (fields used by the handlers). -/
structure Ticket where
  ticket_id : Nat
  event_id : Nat
  ticket_number : Nat
  ticket_status : String
  total_tickets_in_group : Option Nat
  nft_mint_status : MintStatus
  nft_contract_address : Option String
  nft_token_id : Option Nat
  nft_metadata : NftMetadata
  deriving DecidableEq, Repr

/-- Status of a `mint_queue` row. -/
inductive JobStatus
  | pending
  | processing
  | minted
  | failed
  deriving DecidableEq, Repr

/-- One per-ticket entry of the `nftMetadata` array the handler prepares
for IPFS/blockchain: `{ticketId, tokenId, metadata}`. -/
structure MintItem where
  ticketId : Nat
  tokenId : Nat
  metadata : NftMetadata
  deriving DecidableEq, Repr

/-- A row of the `mint_queue` table.  `queueForMinting` inserts
`{event_id, ticket_data, status, created_at}`; `retry_count` and
`error_message` are columns the retry handler writes (absent at enqueue). -/
structure MintJob where
  job_id : Nat
  event_id : Nat
  ticket_data : List MintItem
  status : JobStatus
  retry_count : Option Nat
  error_message : Option String
  created_at : Nat
  processed_at : Option Nat
  deriving DecidableEq, Repr

/-- The persisted state both tables together. -/
structure Store where
  tickets : List Ticket
  queue : List MintJob
  deriving DecidableEq, Repr

/-! ### retry-mint handler (`src/api/event/tickets.js`, lines 76-107)

For every `mint_queue` row with matching `event_id` and `status = failed`,
set `status := pending`, `retry_count := 0`, `error_message := null`;
all other rows untouched. -/

def resetJob (j : MintJob) : MintJob :=
  { j with status := .pending, retry_count := some 0, error_message := none }

def retryMint (eid : Nat) (queue : List MintJob) : List MintJob :=
  queue.map fun j =>
    if j.event_id == eid && j.status == JobStatus.failed then resetJob j else j

/-- The handler's success response: a fixed status and message.  The body
carries no count of the rows that were reset. -/
structure RetryResponse where
  status : String
  message : String
  deriving DecidableEq, Repr

def retryMintResponse : RetryResponse :=
  { status := "success", message := "Failed mint jobs queued for retry" }

def retryMintHandler (eid : Nat) (queue : List MintJob) :
    List MintJob × RetryResponse :=
  (retryMint eid queue, retryMintResponse)

/-- Number of rows the retry update actually rewrites. -/
def resetCount (eid : Nat) (queue : List MintJob) : Nat :=
  (queue.filter fun j => j.event_id == eid && j.status == JobStatus.failed).length

/-! ### mint-status handler (`src/api/event/tickets.js`, lines 34-73) -/

/-- Projection the queue query selects:
`status, created_at, processed_at, error_message`. -/
structure QueueJobView where
  status : JobStatus
  created_at : Nat
  processed_at : Option Nat
  error_message : Option String
  deriving DecidableEq, Repr

def jobView (j : MintJob) : QueueJobView :=
  { status := j.status, created_at := j.created_at,
    processed_at := j.processed_at, error_message := j.error_message }

/-- `order('created_at', descending)`: insertion sort by `created_at`
descending (a stable order of the selected rows). -/
def insertByCreatedDesc (j : MintJob) : List MintJob → List MintJob
  | [] => [j]
  | k :: rest =>
    if k.created_at ≤ j.created_at then j :: k :: rest
    else k :: insertByCreatedDesc j rest

def sortByCreatedDesc : List MintJob → List MintJob
  | [] => []
  | j :: rest => insertByCreatedDesc j (sortByCreatedDesc rest)

structure MintSummary where
  total_tickets : Nat
  minted : Nat
  pending : Nat
  failed : Nat
  queue_jobs : List QueueJobView
  deriving DecidableEq, Repr

def mintStatusSummary (eid : Nat) (tickets : List Ticket)
    (queue : List MintJob) : MintSummary :=
  let ts := tickets.filter fun t => t.event_id == eid
  let qs := sortByCreatedDesc (queue.filter fun j => j.event_id == eid)
  { total_tickets := ts.length
    minted := (ts.filter fun t => t.nft_mint_status == MintStatus.minted).length
    pending := (ts.filter fun t => t.nft_mint_status == MintStatus.pending).length
    failed := (ts.filter fun t => t.nft_mint_status == MintStatus.failed).length
    queue_jobs := qs.map jobView }

/-! ### delete handler (`src/unnamed/part_000`)

Single-ticket path: look the ticket up; reject with a 400 error when its
`nft_mint_status` is `minted` or `transferred`; otherwise delete the row.
Bulk path: delete every row of the event whose `nft_mint_status` is in
`['pending']` and report the deleted count with a 200 success. -/

inductive DeleteOutcome
  | deleted (ticket_id : Nat)
  | rejectedMinted
  | notFound
  | bulkDeleted (count : Nat)
  deriving DecidableEq, Repr

def deleteTicket (tid : Nat) (tickets : List Ticket) :
    List Ticket × DeleteOutcome :=
  match tickets.find? (fun t => t.ticket_id == tid) with
  | none => (tickets, .notFound)
  | some t =>
    if t.nft_mint_status == MintStatus.minted
        || t.nft_mint_status == MintStatus.transferred then
      (tickets, .rejectedMinted)
    else
      (tickets.filter fun u => !(u.ticket_id == tid), .deleted tid)

def bulkDeletable (eid : Nat) (t : Ticket) : Bool :=
  t.event_id == eid && t.nft_mint_status == MintStatus.pending

def deleteEventTickets (eid : Nat) (tickets : List Ticket) :
    List Ticket × DeleteOutcome :=
  let deleted := tickets.filter (bulkDeletable eid)
  (tickets.filter fun t => !bulkDeletable eid t, .bulkDeleted deleted.length)

/-! ### mint handler (`src/api/event/mint.js`)

The file contains two complete handler implementations.  The first
("legacy", lines 8-175) inserts tickets one row at a time in a loop with
`ticket_number = i` for `i = 1..quantity`.  The second ("batch",
lines 183-341) computes a starting number from the store, builds all rows,
inserts them with one bulk insert, and then either mints immediately or
enqueues a mint job. -/

structure MintRequest where
  event_id : Nat
  ticket_name : String
  quantity : Nat
  price : Nat
  image_url : Option String
  description : String
  ticket_type : String
  deriving DecidableEq, Repr

/-- The event context the handler reads (`events` row joined with its
wallet): the fields the ticket-building code uses. -/
structure EventCtx where
  event_name : String
  nft_contract_address : String
  admin_wallet_address : String
  deriving DecidableEq, Repr

/-- `select('ticket_number').eq('event_id', ...)`: the ticket numbers of
one event present in the store. -/
def eventTicketNumbers (eid : Nat) (tickets : List Ticket) : List Nat :=
  (tickets.filter fun t => t.event_id == eid).map Ticket.ticket_number

/-- `existingTickets?.length ? existingTickets[0].ticket_number + 1 : 1`
where the query orders descending with limit 1, i.e. takes the maximum. -/
def startingNumber (eid : Nat) (tickets : List Ticket) : Nat :=
  if (eventTicketNumbers eid tickets).isEmpty then 1
  else (eventTicketNumbers eid tickets).foldr max 0 + 1

/-- `image_url || placeholder` (URL-encoding of the name elided). -/
def imageOrPlaceholder (req : MintRequest) : String :=
  match req.image_url with
  | some u => u
  | none => "https://api.placeholder.com/400x300?text=" ++ req.ticket_name

def priceEthString (req : MintRequest) : String :=
  toString req.price ++ " ETH"

/-- Attributes of the persisted ticket row's `nft_metadata`
(batch handler, lines 273-279). -/
def persistedAttrs (req : MintRequest) (ctx : EventCtx)
    (ticketNumber : Nat) : List Attribute :=
  [ { trait_type := "Event", value := .str ctx.event_name },
    { trait_type := "Ticket Type", value := .str req.ticket_type },
    { trait_type := "Ticket Number", value := .nat ticketNumber },
    { trait_type := "Price", value := .str (priceEthString req) },
    { trait_type := "Total Supply", value := .nat req.quantity } ]

def persistedTicketMetadata (req : MintRequest) (ctx : EventCtx)
    (ticketNumber : Nat) : NftMetadata :=
  { name := req.ticket_name ++ " #" ++ toString ticketNumber
    description := req.description
    image := imageOrPlaceholder req
    attributes := persistedAttrs req ctx ticketNumber }

/-- Attributes of the metadata document prepared for IPFS/blockchain
(batch handler, lines 292-297): Event, Ticket Type, Ticket Number, Price. -/
def mintItemAttrs (req : MintRequest) (ctx : EventCtx)
    (ticketNumber : Nat) : List Attribute :=
  [ { trait_type := "Event", value := .str ctx.event_name },
    { trait_type := "Ticket Type", value := .str req.ticket_type },
    { trait_type := "Ticket Number", value := .nat ticketNumber },
    { trait_type := "Price", value := .str (priceEthString req) } ]

def mintItemMetadata (req : MintRequest) (ctx : EventCtx)
    (ticketNumber : Nat) : NftMetadata :=
  { name := req.ticket_name ++ " #" ++ toString ticketNumber
    description := req.description
    image := imageOrPlaceholder req
    attributes := mintItemAttrs req ctx ticketNumber }

/-- One row of `ticketsToCreate` (batch handler, lines 261-282); `base`
stands for the run of `crypto.randomUUID()` calls: ticket `i` of the batch
receives the fresh id `base + i`. -/
def batchTicket (req : MintRequest) (ctx : EventCtx)
    (start base i : Nat) : Ticket :=
  { ticket_id := base + i
    event_id := req.event_id
    ticket_number := start + i
    ticket_status := "valid"
    total_tickets_in_group := none
    nft_mint_status := .pending
    nft_contract_address := some ctx.nft_contract_address
    nft_token_id := none
    nft_metadata := persistedTicketMetadata req ctx (start + i) }

def ticketsToCreate (req : MintRequest) (ctx : EventCtx)
    (start base : Nat) : List Ticket :=
  (List.range req.quantity).map (batchTicket req ctx start base)

/-- One entry of the `nftMetadata` array (batch handler, lines 285-299):
`tokenId` is the ticket's `ticket_number`. -/
def batchMintItem (req : MintRequest) (ctx : EventCtx)
    (start base i : Nat) : MintItem :=
  { ticketId := base + i
    tokenId := start + i
    metadata := mintItemMetadata req ctx (start + i) }

def nftMetadataList (req : MintRequest) (ctx : EventCtx)
    (start base : Nat) : List MintItem :=
  (List.range req.quantity).map (batchMintItem req ctx start base)

/-! ### mintToBlockchain (lines 344-391)

On success (`tx.wait()` resolves): for each item, update the ticket whose
`ticket_id` matches to `nft_mint_status = minted`,
`nft_token_id = tokenIds[i]`.  On any thrown error: for each item, update
the matching ticket to `nft_mint_status = failed`, then rethrow.  The
function never reads or writes the `mint_queue` table. -/

def applyMintSuccess (item : MintItem) (t : Ticket) : Ticket :=
  if t.ticket_id == item.ticketId then
    { t with nft_mint_status := .minted, nft_token_id := some item.tokenId }
  else t

def applyMintFailure (item : MintItem) (t : Ticket) : Ticket :=
  if t.ticket_id == item.ticketId then
    { t with nft_mint_status := .failed }
  else t

def mintToBlockchain (items : List MintItem) (chainOk : Bool)
    (tickets : List Ticket) : List Ticket :=
  if chainOk then
    items.foldl (fun ts item => ts.map (applyMintSuccess item)) tickets
  else
    items.foldl (fun ts item => ts.map (applyMintFailure item)) tickets

/-- `mintToBlockchain` acting on the whole store: it only ever issues
updates against the `tickets` table. -/
def mintToBlockchainStore (items : List MintItem) (chainOk : Bool)
    (s : Store) : Store :=
  { s with tickets := mintToBlockchain items chainOk s.tickets }

/-- `queueForMinting` (lines 394-407): insert one `mint_queue` row with
`status = pending`; `jid` stands for the store-generated row id. -/
def queueForMinting (eid : Nat) (items : List MintItem) (jid now : Nat)
    (queue : List MintJob) : List MintJob :=
  queue ++ [{ job_id := jid, event_id := eid, ticket_data := items,
              status := .pending, retry_count := none, error_message := none,
              created_at := now, processed_at := none }]

inductive MintError
  | validation
  | persistence
  | mintFailed
  | queueError
  deriving DecidableEq, Repr

structure MintResponse where
  event_id : Nat
  tickets_created : Nat
  starting_ticket_number : Nat
  mint_status : String
  deriving DecidableEq, Repr

/-- Which fallible external steps succeed on this run. -/
structure RunFlags where
  dbOk : Bool
  immediateMint : Bool
  chainOk : Bool
  queueOk : Bool
  deriving DecidableEq, Repr

/-- The batch handler (lines 183-341), after authentication and event
lookup: validate the quantity, compute the starting number, build the rows
and mint items, bulk-insert the rows (all-or-nothing at the store), then
either mint immediately (`IMMEDIATE_MINT`) or enqueue a job.  A thrown
error after the insert (failed immediate mint, failed queue insert) leaves
the inserted tickets in place, as in the source's try/catch. -/
def mintHandlerBatch (req : MintRequest) (ctx : EventCtx)
    (base jid now : Nat) (f : RunFlags) (s : Store) :
    Store × Except MintError MintResponse :=
  if req.quantity < 1 || req.quantity > 1000 then
    (s, .error .validation)
  else
    let start := startingNumber req.event_id s.tickets
    let rows := ticketsToCreate req ctx start base
    let items := nftMetadataList req ctx start base
    if !f.dbOk then
      (s, .error .persistence)
    else
      let s1 : Store := { s with tickets := s.tickets ++ rows }
      if f.immediateMint then
        if f.chainOk then
          (mintToBlockchainStore items true s1,
            .ok { event_id := req.event_id, tickets_created := req.quantity,
                  starting_ticket_number := start, mint_status := "minted" })
        else
          (mintToBlockchainStore items false s1, .error .mintFailed)
      else
        if f.queueOk then
          ({ s1 with queue := queueForMinting req.event_id items jid now s1.queue },
            .ok { event_id := req.event_id, tickets_created := req.quantity,
                  starting_ticket_number := start, mint_status := "queued" })
        else
          (s1, .error .queueError)

/-! ### legacy per-ticket handler (lines 8-175)

Numbers tickets `1..quantity` unconditionally.  Each iteration performs its
own single-row insert; when an insert fails the handler returns a 500
response immediately, leaving the rows of earlier iterations in the
store. -/

/-- `description || 'Ticket for event: ...'` (empty string is falsy). -/
def legacyDescription (req : MintRequest) (ctx : EventCtx) : String :=
  if req.description == "" then "Ticket for event: " ++ ctx.event_name
  else req.description

/-- Legacy `nft_metadata` (lines 116-132); the scalar `price`, `image_url`
and `ticket_type` fields inside the metadata object are elided, the
attribute list is kept in full. -/
def legacyTicketMetadata (req : MintRequest) (ctx : EventCtx)
    (i : Nat) : NftMetadata :=
  { name := req.ticket_name ++ " #" ++ toString i
    description := legacyDescription req ctx
    image := (req.image_url).getD ""
    attributes :=
      [ { trait_type := "Ticket Number", value := .nat i },
        { trait_type := "Total Supply", value := .nat req.quantity } ] }

/-- Legacy row for iteration `i` (`ticket_number = i`); the id is
store-generated, modelled as `base + i`. -/
def legacyTicket (req : MintRequest) (ctx : EventCtx)
    (base i : Nat) : Ticket :=
  { ticket_id := base + i
    event_id := req.event_id
    ticket_number := i
    ticket_status := "valid"
    total_tickets_in_group := some req.quantity
    nft_mint_status := .pending
    nft_contract_address := none
    nft_token_id := none
    nft_metadata := legacyTicketMetadata req ctx i }

inductive LoopResult
  | success
  | validationError
  | insertError
  deriving DecidableEq, Repr

/-- The insert loop: `failAt = some k` means the single-row insert of
iteration `k` fails (the handler then returns 500 with the earlier rows
already committed); `failAt = none` means every insert succeeds. -/
def legacyInsertLoop (req : MintRequest) (ctx : EventCtx) (base : Nat)
    (failAt : Option Nat) : List Nat → List Ticket → List Ticket × LoopResult
  | [], acc => (acc, .success)
  | i :: rest, acc =>
    if failAt == some i then (acc, .insertError)
    else legacyInsertLoop req ctx base failAt rest (acc ++ [legacyTicket req ctx base i])

def mintHandlerLoop (req : MintRequest) (ctx : EventCtx) (base : Nat)
    (failAt : Option Nat) (tickets : List Ticket) : List Ticket × LoopResult :=
  if req.quantity < 1 then (tickets, .validationError)
  else legacyInsertLoop req ctx base failAt (List.range' 1 req.quantity) tickets

/-! ### MintQueue.markProcessing -/

inductive QueueOpError
  | conflict
  | notFound
  deriving DecidableEq, Repr

/-- Modelled from the spec: no implementation of `markProcessing` exists
under `src/` (the queue-draining worker is an external consumer); spec
section 4.2 defines it as transitioning a job pending→processing and
failing with `ConflictError` when the job is not currently pending,
leaving the job unchanged. -/
def markProcessing (jid : Nat) (queue : List MintJob) :
    List MintJob × Option QueueOpError :=
  match queue.find? (fun j => j.job_id == jid) with
  | none => (queue, some .notFound)
  | some j =>
    if j.status == JobStatus.pending then
      (queue.map fun k =>
        if k.job_id == jid then { k with status := .processing } else k, none)
    else (queue, some .conflict)

/-! ## Theorems -/

/-- The four mint statuses partition any list of tickets. -/
theorem length_filter_status_partition (l : List Ticket) :
    (l.filter fun t => t.nft_mint_status == MintStatus.minted).length
      + (l.filter fun t => t.nft_mint_status == MintStatus.pending).length
      + (l.filter fun t => t.nft_mint_status == MintStatus.failed).length
      + (l.filter fun t => t.nft_mint_status == MintStatus.transferred).length
      = l.length := by
  induction l with
  | nil => rfl
  | cons a l ih =>
    cases h : a.nft_mint_status <;> simp [List.filter_cons, h] <;> omega

/-- C10: in the mint-status summary, a ticket of the event whose
`nft_mint_status` is none of minted/pending/failed is counted in
`total_tickets` but in none of the three buckets, so the bucket sum is
strictly below the total; and on an empty store the summary is all zeros
with an empty job list. -/
theorem mintStatusSummary_other_status_and_empty
    (eid : Nat) (tickets : List Ticket) (queue : List MintJob) (t : Ticket)
    (ht : t ∈ tickets) (hev : t.event_id = eid)
    (h1 : t.nft_mint_status ≠ MintStatus.minted)
    (h2 : t.nft_mint_status ≠ MintStatus.pending)
    (h3 : t.nft_mint_status ≠ MintStatus.failed) :
    ((mintStatusSummary eid tickets queue).minted
        + (mintStatusSummary eid tickets queue).pending
        + (mintStatusSummary eid tickets queue).failed
      < (mintStatusSummary eid tickets queue).total_tickets)
    ∧ mintStatusSummary eid [] [] =
        { total_tickets := 0, minted := 0, pending := 0, failed := 0,
          queue_jobs := [] } := by
  refine ⟨?_, rfl⟩
  have hstatus : t.nft_mint_status = MintStatus.transferred := by
    cases h : t.nft_mint_status <;> simp_all
  have hmem : t ∈ tickets.filter (fun u => u.event_id == eid) :=
    List.mem_filter.mpr ⟨ht, by simp [hev]⟩
  have hmem2 : t ∈ (tickets.filter (fun u => u.event_id == eid)).filter
      (fun u => u.nft_mint_status == MintStatus.transferred) :=
    List.mem_filter.mpr ⟨hmem, by simp [hstatus]⟩
  have hpos : 0 < ((tickets.filter (fun u => u.event_id == eid)).filter
      (fun u => u.nft_mint_status == MintStatus.transferred)).length :=
    List.length_pos_of_mem hmem2
  have hpart := length_filter_status_partition
    (tickets.filter (fun u => u.event_id == eid))
  simp only [mintStatusSummary]
  omega

/-- C10 witness data: a transferred ticket of event 5. -/
def emptyMeta : NftMetadata :=
  { name := "", description := "", image := "", attributes := [] }

def transferredSample : Ticket :=
  { ticket_id := 9, event_id := 5, ticket_number := 3, ticket_status := "valid",
    total_tickets_in_group := none, nft_mint_status := .transferred,
    nft_contract_address := none, nft_token_id := some 3,
    nft_metadata := emptyMeta }

theorem mintStatusSummary_other_status_and_empty_witness :
    (transferredSample ∈ [transferredSample]
      ∧ transferredSample.event_id = 5
      ∧ transferredSample.nft_mint_status ≠ MintStatus.minted
      ∧ transferredSample.nft_mint_status ≠ MintStatus.pending
      ∧ transferredSample.nft_mint_status ≠ MintStatus.failed)
    ∧ (((mintStatusSummary 5 [transferredSample] []).minted
          + (mintStatusSummary 5 [transferredSample] []).pending
          + (mintStatusSummary 5 [transferredSample] []).failed
        < (mintStatusSummary 5 [transferredSample] []).total_tickets)
      ∧ mintStatusSummary 5 [] [] =
          { total_tickets := 0, minted := 0, pending := 0, failed := 0,
            queue_jobs := [] }) :=
  ⟨⟨by decide, rfl, by decide, by decide, by decide⟩,
    mintStatusSummary_other_status_and_empty 5 [transferredSample] []
      transferredSample (by decide) rfl (by decide) (by decide) (by decide)⟩

/-! C6: the retry-mint handler. -/

def failedJobA : MintJob :=
  { job_id := 1, event_id := 5, ticket_data := [], status := .failed,
    retry_count := some 2, error_message := some "rpc timeout",
    created_at := 10, processed_at := some 11 }

def failedJobB : MintJob := { failedJobA with job_id := 2 }

/-- C6 counterexample: the retry handler's response is the same fixed
success message whether one or two failed jobs were reset — the response
carries no `reset_count`, so the operation does not return the count of
entries reset. -/
theorem retryMint_response_no_count :
    resetCount 5 [failedJobA] = 1
    ∧ resetCount 5 [failedJobA, failedJobB] = 2
    ∧ (retryMintHandler 5 [failedJobA]).2
        = (retryMintHandler 5 [failedJobA, failedJobB]).2 :=
  ⟨rfl, rfl, rfl⟩

/-- C6 (amended): the retry handler sets every failed job of the event to
pending with `retry_count = 0` and `error_message = null`, leaves every
other job unchanged (in particular it changes nothing when no job of the
event is failed), and returns a fixed success message without a count. -/
theorem retryMint_resets_exactly_failed (eid : Nat) (queue : List MintJob)
    (k : Nat) (hk : k < queue.length) :
    (retryMint eid queue)[k]? =
      some (if queue[k].event_id = eid ∧ queue[k].status = JobStatus.failed
            then resetJob queue[k] else queue[k])
    ∧ (retryMintHandler eid queue).2 = retryMintResponse := by
  refine ⟨?_, rfl⟩
  rw [retryMint, List.getElem?_map, List.getElem?_eq_getElem hk]
  by_cases hc1 : queue[k].event_id = eid <;>
    by_cases hc2 : queue[k].status = JobStatus.failed <;>
      simp [hc1, hc2]

theorem retryMint_resets_exactly_failed_witness :
    0 < [failedJobA, failedJobB].length
    ∧ ((retryMint 5 [failedJobA, failedJobB])[0]? =
        some (if ([failedJobA, failedJobB])[0].event_id = 5
                ∧ ([failedJobA, failedJobB])[0].status = JobStatus.failed
              then resetJob ([failedJobA, failedJobB])[0]
              else ([failedJobA, failedJobB])[0])
      ∧ (retryMintHandler 5 [failedJobA, failedJobB]).2 = retryMintResponse) :=
  ⟨by decide, retryMint_resets_exactly_failed 5 [failedJobA, failedJobB] 0 (by decide)⟩

/-! C7: the delete handler's mint-status guard. -/

def sampleMintedTicket : Ticket :=
  { ticket_id := 7, event_id := 5, ticket_number := 1, ticket_status := "valid",
    total_tickets_in_group := none, nft_mint_status := .minted,
    nft_contract_address := some "0xC", nft_token_id := some 1,
    nft_metadata := emptyMeta }

def sampleTransferredTicket : Ticket :=
  { sampleMintedTicket with
    ticket_id := 8, ticket_number := 2,
    nft_mint_status := .transferred, nft_token_id := some 2 }

/-- C7 counterexample: the bulk per-event delete on an event containing a
minted ticket does not reject with an error — it returns a success
outcome (deleted count 0) while silently leaving the minted ticket in
place. -/
theorem bulkDelete_succeeds_on_minted :
    deleteEventTickets 5 [sampleMintedTicket]
      = ([sampleMintedTicket], DeleteOutcome.bulkDeleted 0) := by
  rfl

/-- C7 (amended): single-ticket deletion of a ticket whose
`nft_mint_status` is minted or transferred is rejected with a validation
error and the store is unchanged (the ticket remains); bulk per-event
deletion never rejects: it reports success and deletes only the pending
tickets of the event, leaving every non-pending ticket (minted,
transferred, failed) in place. -/
theorem delete_guard_minted (tid eid : Nat) (tickets : List Ticket)
    (t : Ticket)
    (hfind : tickets.find? (fun v => v.ticket_id == tid) = some t)
    (hst : t.nft_mint_status = MintStatus.minted
            ∨ t.nft_mint_status = MintStatus.transferred)
    (u : Ticket) (hu : u ∈ tickets) (huev : u.event_id = eid)
    (hup : u.nft_mint_status ≠ MintStatus.pending) :
    deleteTicket tid tickets = (tickets, DeleteOutcome.rejectedMinted)
    ∧ t ∈ tickets
    ∧ u ∈ (deleteEventTickets eid tickets).1
    ∧ (deleteEventTickets eid tickets).2
        = DeleteOutcome.bulkDeleted (tickets.filter (bulkDeletable eid)).length := by
  refine ⟨?_, List.mem_of_find?_eq_some hfind, ?_, rfl⟩
  · rw [deleteTicket, hfind]
    rcases hst with h | h <;> simp [h]
  · refine List.mem_filter.mpr ⟨hu, ?_⟩
    simp [bulkDeletable, huev, hup]

theorem delete_guard_minted_witness :
    ([sampleMintedTicket, sampleTransferredTicket].find?
        (fun v => v.ticket_id == 7) = some sampleMintedTicket
      ∧ (sampleMintedTicket.nft_mint_status = MintStatus.minted
          ∨ sampleMintedTicket.nft_mint_status = MintStatus.transferred)
      ∧ sampleTransferredTicket ∈ [sampleMintedTicket, sampleTransferredTicket]
      ∧ sampleTransferredTicket.event_id = 5
      ∧ sampleTransferredTicket.nft_mint_status ≠ MintStatus.pending)
    ∧ (deleteTicket 7 [sampleMintedTicket, sampleTransferredTicket]
        = ([sampleMintedTicket, sampleTransferredTicket],
            DeleteOutcome.rejectedMinted)
      ∧ sampleMintedTicket ∈ [sampleMintedTicket, sampleTransferredTicket]
      ∧ sampleTransferredTicket
          ∈ (deleteEventTickets 5 [sampleMintedTicket, sampleTransferredTicket]).1
      ∧ (deleteEventTickets 5 [sampleMintedTicket, sampleTransferredTicket]).2
          = DeleteOutcome.bulkDeleted
              ([sampleMintedTicket, sampleTransferredTicket].filter
                (bulkDeletable 5)).length) :=
  ⟨⟨by decide, Or.inl (by decide), by decide, by decide, by decide⟩,
    delete_guard_minted 7 5 [sampleMintedTicket, sampleTransferredTicket]
      sampleMintedTicket (by decide) (Or.inl (by decide))
      sampleTransferredTicket (by decide) (by decide) (by decide)⟩

/-! C9: metadata attribute lists. -/

/-- Does a metadata document carry an attribute with the given
`trait_type`? -/
def hasAttr (m : NftMetadata) (s : String) : Bool :=
  m.attributes.any fun a => a.trait_type == s

def sampleReq : MintRequest :=
  { event_id := 5, ticket_name := "GA", quantity := 1, price := 1,
    image_url := some "img", description := "d", ticket_type := "standard" }

def sampleCtx : EventCtx :=
  { event_name := "Conf", nft_contract_address := "0xC",
    admin_wallet_address := "0xW" }

/-- C9 counterexample: the metadata document the handler prepares for the
blockchain upload (`nftMetadata[i].metadata`) carries no `Total Supply`
attribute, on the concrete issuance request `sampleReq`. -/
theorem mintItemMetadata_missing_total_supply :
    (nftMetadataList sampleReq sampleCtx 1 100).map
        (fun it => hasAttr it.metadata "Total Supply") = [false] := by
  decide

/-- C9 (amended): every persisted ticket metadata document (batch handler
rows and legacy handler rows) carries both a `Ticket Number` and a
`Total Supply` attribute; the per-ticket document prepared for the
blockchain upload carries `Ticket Number` but no `Total Supply`. -/
theorem metadata_attribute_coverage (req : MintRequest) (ctx : EventCtx)
    (n : Nat) :
    hasAttr (persistedTicketMetadata req ctx n) "Ticket Number" = true
    ∧ hasAttr (persistedTicketMetadata req ctx n) "Total Supply" = true
    ∧ hasAttr (legacyTicketMetadata req ctx n) "Ticket Number" = true
    ∧ hasAttr (legacyTicketMetadata req ctx n) "Total Supply" = true
    ∧ hasAttr (mintItemMetadata req ctx n) "Ticket Number" = true
    ∧ hasAttr (mintItemMetadata req ctx n) "Total Supply" = false := by
  refine ⟨?_, ?_, ?_, ?_, ?_, ?_⟩ <;>
    simp [hasAttr, persistedTicketMetadata, persistedAttrs,
      legacyTicketMetadata, mintItemMetadata, mintItemAttrs, List.any]

/-! C8: MintQueue.markProcessing (spec-modelled). -/

/-- C8: `markProcessing` on a job that is not currently pending fails
with a conflict and leaves the queue unchanged; and after a successful
pending→processing claim of a job, a second `markProcessing` of the same
job fails with a conflict and changes nothing — at most one caller can
transition a given job out of pending. -/
theorem markProcessing_single_claim (jid : Nat)
    (queue : List MintJob) (j : MintJob)
    (hfind : queue.find? (fun k => k.job_id == jid) = some j) :
    (j.status ≠ JobStatus.pending →
      markProcessing jid queue = (queue, some QueueOpError.conflict))
    ∧ (j.status = JobStatus.pending →
        (markProcessing jid queue).2 = none
        ∧ markProcessing jid (markProcessing jid queue).1
            = ((markProcessing jid queue).1, some QueueOpError.conflict)) := by
  constructor
  · intro hnp
    rw [markProcessing, hfind]
    simp [hnp]
  · intro hp
    have hpj : (j.job_id == jid) = true := by
      simpa using List.find?_some hfind
    have h1 : markProcessing jid queue
        = (queue.map (fun k => if k.job_id == jid
            then { k with status := JobStatus.processing } else k), none) := by
      rw [markProcessing, hfind]
      simp [hp]
    have hfind2 : (queue.map (fun k => if k.job_id == jid
          then { k with status := JobStatus.processing } else k)).find?
            (fun k => k.job_id == jid)
        = some { j with status := JobStatus.processing } := by
      rw [List.find?_map]
      have hpred : ((fun k => k.job_id == jid) ∘ (fun k => if k.job_id == jid
          then { k with status := JobStatus.processing } else k))
          = (fun k : MintJob => k.job_id == jid) := by
        funext k
        by_cases h : k.job_id = jid <;> simp [h]
      rw [hpred, hfind]
      have hj : j.job_id = jid := by simpa using hpj
      simp [hj]
    rw [h1]
    exact ⟨rfl, by rw [markProcessing, hfind2]; simp⟩

def pendingJobC : MintJob :=
  { job_id := 3, event_id := 5, ticket_data := [], status := .pending,
    retry_count := none, error_message := none, created_at := 20,
    processed_at := none }

theorem markProcessing_single_claim_witness :
    [pendingJobC].find? (fun k => k.job_id == 3) = some pendingJobC
    ∧ ((pendingJobC.status ≠ JobStatus.pending →
          markProcessing 3 [pendingJobC] = ([pendingJobC], some QueueOpError.conflict))
      ∧ (pendingJobC.status = JobStatus.pending →
          (markProcessing 3 [pendingJobC]).2 = none
          ∧ markProcessing 3 (markProcessing 3 [pendingJobC]).1
              = ((markProcessing 3 [pendingJobC]).1, some QueueOpError.conflict))) :=
  ⟨by decide, markProcessing_single_claim 3 [pendingJobC] pendingJobC (by decide)⟩

/-! C1: atomicity of issuance persistence. -/

/-- A fold of per-item table rewrites preserves the table's length. -/
theorem foldl_map_length (g : MintItem → Ticket → Ticket) :
    ∀ (l : List MintItem) (ts : List Ticket),
      (l.foldl (fun acc it => acc.map (g it)) ts).length = ts.length
  | [], _ => rfl
  | it :: l, ts => by
    rw [List.foldl_cons, foldl_map_length g l, List.length_map]

theorem mintToBlockchain_length (items : List MintItem) (chainOk : Bool)
    (ts : List Ticket) :
    (mintToBlockchain items chainOk ts).length = ts.length := by
  rw [mintToBlockchain]
  by_cases h : chainOk <;> simp [h, foldl_map_length]

theorem ticketsToCreate_length (req : MintRequest) (ctx : EventCtx)
    (start base : Nat) :
    (ticketsToCreate req ctx start base).length = req.quantity := by
  rw [ticketsToCreate, List.length_map, List.length_range]

/-- When the single-row insert of iteration `k` fails, the legacy loop
stops with an error, leaving exactly the rows of iterations before `k`
appended to the store. -/
theorem legacyInsertLoop_fail (req : MintRequest) (ctx : EventCtx)
    (base k : Nat) :
    ∀ (n a : Nat) (acc : List Ticket), a ≤ k → k < a + n →
      legacyInsertLoop req ctx base (some k) (List.range' a n) acc
        = (acc ++ (List.range' a (k - a)).map (legacyTicket req ctx base),
            LoopResult.insertError) := by
  intro n
  induction n with
  | zero => intro a acc h1 h2; omega
  | succ n ih =>
    intro a acc h1 h2
    rw [List.range'_succ]
    by_cases hak : a = k
    · subst hak
      simp [legacyInsertLoop]
    · have hlt : a < k := lt_of_le_of_ne h1 hak
      have hne : ((some k : Option Nat) == some a) = false := by
        simp only [beq_eq_false_iff_ne, ne_eq, Option.some.injEq]
        omega
      rw [legacyInsertLoop, hne]
      simp only [Bool.false_eq_true, if_false]
      rw [ih (a + 1) (acc ++ [legacyTicket req ctx base a]) (by omega) (by omega)]
      have hrange : (List.range' a (k - a)).map (legacyTicket req ctx base)
          = legacyTicket req ctx base a
            :: (List.range' (a + 1) (k - (a + 1))).map (legacyTicket req ctx base) := by
        have hk : k - a = (k - (a + 1)) + 1 := by omega
        rw [hk, List.range'_succ, List.map_cons]
      rw [hrange]
      simp

def sampleReq2 : MintRequest := { sampleReq with quantity := 2 }

/-- C1 counterexample: in the legacy per-ticket handler, when the second
of two single-row inserts fails, the handler reports an error but the
first ticket of the request remains in the store — issuance persistence
is not atomic on that code path. -/
theorem legacy_partial_insert_not_atomic :
    (mintHandlerLoop sampleReq2 sampleCtx 100 (some 2) []).2
        = LoopResult.insertError
    ∧ (mintHandlerLoop sampleReq2 sampleCtx 100 (some 2) []).1.length = 1 :=
  ⟨rfl, rfl⟩

/-- C1 (amended): the batch handler's persistence is atomic — every run
either leaves the store with all `quantity` new ticket rows present or
returns an error with the store unchanged; the legacy per-ticket handler
is not atomic — when its `k`-th single-row insert fails, the rows of
iterations `1..k-1` remain behind. -/
theorem issuance_atomicity (req : MintRequest) (ctx : EventCtx)
    (base jid now : Nat) (f : RunFlags) (s : Store) (k : Nat)
    (hk1 : 1 ≤ k) (hk2 : k ≤ req.quantity) :
    ((mintHandlerBatch req ctx base jid now f s).1.tickets.length
        = s.tickets.length + req.quantity
      ∨ ((mintHandlerBatch req ctx base jid now f s).1 = s
          ∧ ∃ e, (mintHandlerBatch req ctx base jid now f s).2 = Except.error e))
    ∧ mintHandlerLoop req ctx base (some k) s.tickets
        = (s.tickets ++ (List.range' 1 (k - 1)).map (legacyTicket req ctx base),
            LoopResult.insertError) := by
  constructor
  · simp only [mintHandlerBatch]
    split_ifs with h1 h2 h3 h4 h5
    · exact Or.inr ⟨rfl, MintError.validation, rfl⟩
    · exact Or.inr ⟨rfl, MintError.persistence, rfl⟩
    · left
      simp [mintToBlockchainStore, mintToBlockchain_length, ticketsToCreate_length]
    · left
      simp [mintToBlockchainStore, mintToBlockchain_length, ticketsToCreate_length]
    · left
      simp [ticketsToCreate_length]
    · left
      simp [ticketsToCreate_length]
  · rw [mintHandlerLoop]
    have hq : ¬ req.quantity < 1 := by omega
    simp only [hq, if_false]
    rw [legacyInsertLoop_fail req ctx base k req.quantity 1 s.tickets hk1 (by omega)]

theorem issuance_atomicity_witness :
    (1 ≤ 2 ∧ 2 ≤ sampleReq2.quantity)
    ∧ (((mintHandlerBatch sampleReq2 sampleCtx 100 9 50
            ⟨true, false, true, true⟩ ⟨[], []⟩).1.tickets.length
          = ([] : List Ticket).length + sampleReq2.quantity
        ∨ ((mintHandlerBatch sampleReq2 sampleCtx 100 9 50
              ⟨true, false, true, true⟩ ⟨[], []⟩).1 = ⟨[], []⟩
            ∧ ∃ e, (mintHandlerBatch sampleReq2 sampleCtx 100 9 50
                ⟨true, false, true, true⟩ ⟨[], []⟩).2 = Except.error e))
      ∧ mintHandlerLoop sampleReq2 sampleCtx 100 (some 2) ([] : List Ticket)
          = ([] ++ (List.range' 1 (2 - 1)).map (legacyTicket sampleReq2 sampleCtx 100),
              LoopResult.insertError)) :=
  ⟨⟨by decide, by decide⟩,
    issuance_atomicity sampleReq2 sampleCtx 100 9 50
      ⟨true, false, true, true⟩ ⟨[], []⟩ 2 (by decide) (by decide)⟩

/-! C2: uniqueness of ticket numbers across issuance requests. -/

/-- Two batch-handler executions for the same event interleaved so that
both read the starting number from the store before either inserts its
rows.  The handler performs no serialization between its number-allocation
read and its insert, so this interleaving of the two runs' store
operations is possible under concurrency. -/
def interleavedDoubleIssue (req : MintRequest) (ctx : EventCtx)
    (baseA baseB : Nat) (tickets : List Ticket) : List Ticket :=
  tickets
    ++ ticketsToCreate req ctx (startingNumber req.event_id tickets) baseA
    ++ ticketsToCreate req ctx (startingNumber req.event_id tickets) baseB

/-- How many tickets of the event carry one given ticket number. -/
def duplicateNumberCount (eid n : Nat) (tickets : List Ticket) : Nat :=
  (tickets.filter fun t => t.event_id == eid && t.ticket_number == n).length

/-- C2 counterexample: two successive successful runs of the legacy
handler (quantity 1, same event) leave two tickets with `ticket_number`
1, because the legacy loop always numbers from 1; and two concurrently
interleaved batch-handler runs that both read the starting number before
either inserts also leave two tickets with `ticket_number` 1. -/
theorem double_issue_duplicate_numbers :
    (mintHandlerLoop sampleReq sampleCtx 100 none []).2 = LoopResult.success
    ∧ (mintHandlerLoop sampleReq sampleCtx 200 none
        (mintHandlerLoop sampleReq sampleCtx 100 none []).1).2
        = LoopResult.success
    ∧ duplicateNumberCount 5 1
        (mintHandlerLoop sampleReq sampleCtx 200 none
          (mintHandlerLoop sampleReq sampleCtx 100 none []).1).1 = 2
    ∧ duplicateNumberCount 5 1
        (interleavedDoubleIssue sampleReq sampleCtx 100 200 []) = 2 :=
  ⟨rfl, rfl, rfl, rfl⟩

theorem le_foldr_max (n : Nat) :
    ∀ l : List Nat, n ∈ l → n ≤ l.foldr max 0
  | a :: l, h => by
    rw [List.foldr_cons]
    rcases List.mem_cons.mp h with rfl | h2
    · exact Nat.le_max_left _ _
    · exact le_trans (le_foldr_max n l h2) (Nat.le_max_right _ _)

/-- Every existing ticket number of the event is strictly below the next
starting number the batch handler allocates. -/
theorem mem_lt_startingNumber (eid : Nat) (tickets : List Ticket) (n : Nat)
    (h : n ∈ eventTicketNumbers eid tickets) :
    n < startingNumber eid tickets := by
  have hne : (eventTicketNumbers eid tickets).isEmpty = false := by
    cases hl : eventTicketNumbers eid tickets with
    | nil => rw [hl] at h; cases h
    | cons a l => rfl
  rw [startingNumber, hne]
  simp only [Bool.false_eq_true, if_false]
  have := le_foldr_max n _ h
  omega

theorem eventTicketNumbers_append (eid : Nat) (l1 l2 : List Ticket) :
    eventTicketNumbers eid (l1 ++ l2)
      = eventTicketNumbers eid l1 ++ eventTicketNumbers eid l2 := by
  rw [eventTicketNumbers, List.filter_append, List.map_append]; rfl

theorem eventTicketNumbers_ticketsToCreate (req : MintRequest)
    (ctx : EventCtx) (start base : Nat) :
    eventTicketNumbers req.event_id (ticketsToCreate req ctx start base)
      = (List.range req.quantity).map (fun i => start + i) := by
  rw [eventTicketNumbers, ticketsToCreate]
  rw [List.filter_eq_self.mpr]
  · rw [List.map_map]; rfl
  · intro t ht
    rcases List.mem_map.mp ht with ⟨i, _, rfl⟩
    simp [batchTicket]

/-- On the queued success path the batch handler appends exactly the
freshly numbered rows. -/
theorem mintHandlerBatch_queued_tickets (req : MintRequest) (ctx : EventCtx)
    (base jid now : Nat) (f : RunFlags) (s : Store)
    (hdb : f.dbOk = true) (him : f.immediateMint = false)
    (hqu : f.queueOk = true)
    (h1 : 1 ≤ req.quantity) (h2 : req.quantity ≤ 1000) :
    mintHandlerBatch req ctx base jid now f s
      = ({ tickets := s.tickets
              ++ ticketsToCreate req ctx (startingNumber req.event_id s.tickets) base,
           queue := queueForMinting req.event_id
              (nftMetadataList req ctx (startingNumber req.event_id s.tickets) base)
              jid now s.queue },
         Except.ok { event_id := req.event_id, tickets_created := req.quantity,
                     starting_ticket_number := startingNumber req.event_id s.tickets,
                     mint_status := "queued" }) := by
  have hv : (decide (req.quantity < 1) || decide (req.quantity > 1000)) = false := by
    simp only [Bool.or_eq_false_iff, decide_eq_false_iff_not]
    omega
  simp [mintHandlerBatch, hdb, him, hqu, hv]
  omega

/-- C2 (amended): a successful batch-handler issuance run, executed
serially (its number-allocation read and its insert not interleaved with
another run), appends ticket numbers that are each strictly greater than
every existing ticket number of the event, so pairwise-distinct ticket
numbers per event are preserved.  The original claim fails on the legacy
handler (which always numbers from 1) and for interleaved concurrent runs
of the batch handler (whose read-then-insert is unserialized); see the
counterexample. -/
theorem batch_sequential_numbers_collision_free (req : MintRequest)
    (ctx : EventCtx) (base jid now : Nat) (f : RunFlags) (s : Store)
    (hdb : f.dbOk = true) (him : f.immediateMint = false)
    (hqu : f.queueOk = true)
    (h1 : 1 ≤ req.quantity) (h2 : req.quantity ≤ 1000)
    (hnd : (eventTicketNumbers req.event_id s.tickets).Nodup) :
    eventTicketNumbers req.event_id
        (mintHandlerBatch req ctx base jid now f s).1.tickets
      = eventTicketNumbers req.event_id s.tickets
        ++ (List.range req.quantity).map
            (fun i => startingNumber req.event_id s.tickets + i)
    ∧ (∀ n ∈ eventTicketNumbers req.event_id s.tickets,
        ∀ m ∈ (List.range req.quantity).map
            (fun i => startingNumber req.event_id s.tickets + i), n < m)
    ∧ (eventTicketNumbers req.event_id
        (mintHandlerBatch req ctx base jid now f s).1.tickets).Nodup := by
  have hrun := mintHandlerBatch_queued_tickets req ctx base jid now f s
    hdb him hqu h1 h2
  have hsplit : eventTicketNumbers req.event_id
      (mintHandlerBatch req ctx base jid now f s).1.tickets
      = eventTicketNumbers req.event_id s.tickets
        ++ (List.range req.quantity).map
            (fun i => startingNumber req.event_id s.tickets + i) := by
    rw [hrun]
    simp only
    rw [eventTicketNumbers_append, eventTicketNumbers_ticketsToCreate]
  have hlt : ∀ n ∈ eventTicketNumbers req.event_id s.tickets,
      ∀ m ∈ (List.range req.quantity).map
          (fun i => startingNumber req.event_id s.tickets + i), n < m := by
    intro n hn m hm
    rcases List.mem_map.mp hm with ⟨i, _, rfl⟩
    have := mem_lt_startingNumber req.event_id s.tickets n hn
    show n < startingNumber req.event_id s.tickets + i
    omega
  refine ⟨hsplit, hlt, ?_⟩
  rw [hsplit, List.nodup_append]
  refine ⟨hnd, ?_, ?_⟩
  · refine List.Nodup.map ?_ (List.nodup_range _)
    intro i j hij
    have hij2 : startingNumber req.event_id s.tickets + i
        = startingNumber req.event_id s.tickets + j := hij
    omega
  · intro n hn hm
    exact lt_irrefl n (hlt n hn n hm)

theorem batch_sequential_numbers_collision_free_witness :
    (RunFlags.dbOk ⟨true, false, true, true⟩ = true
      ∧ RunFlags.immediateMint ⟨true, false, true, true⟩ = false
      ∧ RunFlags.queueOk ⟨true, false, true, true⟩ = true
      ∧ 1 ≤ sampleReq.quantity ∧ sampleReq.quantity ≤ 1000
      ∧ (eventTicketNumbers sampleReq.event_id
          (Store.tickets ⟨[sampleMintedTicket], []⟩)).Nodup)
    ∧ (eventTicketNumbers sampleReq.event_id
          (mintHandlerBatch sampleReq sampleCtx 100 9 50
            ⟨true, false, true, true⟩ ⟨[sampleMintedTicket], []⟩).1.tickets
        = eventTicketNumbers sampleReq.event_id
            (Store.tickets ⟨[sampleMintedTicket], []⟩)
          ++ (List.range sampleReq.quantity).map
              (fun i => startingNumber sampleReq.event_id
                  (Store.tickets ⟨[sampleMintedTicket], []⟩) + i)
      ∧ (∀ n ∈ eventTicketNumbers sampleReq.event_id
            (Store.tickets ⟨[sampleMintedTicket], []⟩),
          ∀ m ∈ (List.range sampleReq.quantity).map
              (fun i => startingNumber sampleReq.event_id
                  (Store.tickets ⟨[sampleMintedTicket], []⟩) + i), n < m)
      ∧ (eventTicketNumbers sampleReq.event_id
          (mintHandlerBatch sampleReq sampleCtx 100 9 50
            ⟨true, false, true, true⟩ ⟨[sampleMintedTicket], []⟩).1.tickets).Nodup) :=
  ⟨⟨rfl, rfl, rfl, by decide, by decide, by decide⟩,
    batch_sequential_numbers_collision_free sampleReq sampleCtx 100 9 50
      ⟨true, false, true, true⟩ ⟨[sampleMintedTicket], []⟩
      rfl rfl rfl (by decide) (by decide) (by decide)⟩

/-! C3: issuance on an event with no prior tickets. -/

def sampleReq3 : MintRequest := { sampleReq with quantity := 3 }

/-- C3: for every quantity in [1,1000], a successful queued-mode batch
issuance for an event with no prior tickets starts numbering at 1 and
appends exactly `quantity` rows whose ticket numbers are `1..quantity`,
each created with `nft_mint_status = pending`. -/
theorem issuance_fresh_event (req : MintRequest) (ctx : EventCtx)
    (base jid now : Nat) (f : RunFlags) (s : Store)
    (hdb : f.dbOk = true) (him : f.immediateMint = false)
    (hqu : f.queueOk = true)
    (h1 : 1 ≤ req.quantity) (h2 : req.quantity ≤ 1000)
    (hempty : eventTicketNumbers req.event_id s.tickets = []) :
    (mintHandlerBatch req ctx base jid now f s).2
      = Except.ok { event_id := req.event_id, tickets_created := req.quantity,
                    starting_ticket_number := 1, mint_status := "queued" }
    ∧ (mintHandlerBatch req ctx base jid now f s).1.tickets
        = s.tickets ++ ticketsToCreate req ctx 1 base
    ∧ (ticketsToCreate req ctx 1 base).length = req.quantity
    ∧ (ticketsToCreate req ctx 1 base).map Ticket.ticket_number
        = (List.range req.quantity).map (fun i => 1 + i)
    ∧ ∀ t ∈ ticketsToCreate req ctx 1 base,
        t.nft_mint_status = MintStatus.pending := by
  have hstart : startingNumber req.event_id s.tickets = 1 := by
    rw [startingNumber, hempty]
    rfl
  have hrun := mintHandlerBatch_queued_tickets req ctx base jid now f s
    hdb him hqu h1 h2
  rw [hstart] at hrun
  refine ⟨by rw [hrun], by rw [hrun], ticketsToCreate_length req ctx 1 base, ?_, ?_⟩
  · rw [ticketsToCreate, List.map_map]
    rfl
  · intro t ht
    rcases List.mem_map.mp ht with ⟨i, _, rfl⟩
    rfl

theorem issuance_fresh_event_witness :
    (RunFlags.dbOk ⟨true, false, true, true⟩ = true
      ∧ RunFlags.immediateMint ⟨true, false, true, true⟩ = false
      ∧ RunFlags.queueOk ⟨true, false, true, true⟩ = true
      ∧ 1 ≤ sampleReq3.quantity ∧ sampleReq3.quantity ≤ 1000
      ∧ eventTicketNumbers sampleReq3.event_id (Store.tickets ⟨[], []⟩) = [])
    ∧ ((mintHandlerBatch sampleReq3 sampleCtx 100 9 50
          ⟨true, false, true, true⟩ ⟨[], []⟩).2
        = Except.ok { event_id := sampleReq3.event_id,
                      tickets_created := sampleReq3.quantity,
                      starting_ticket_number := 1, mint_status := "queued" }
      ∧ (mintHandlerBatch sampleReq3 sampleCtx 100 9 50
          ⟨true, false, true, true⟩ ⟨[], []⟩).1.tickets
          = Store.tickets ⟨[], []⟩ ++ ticketsToCreate sampleReq3 sampleCtx 1 100
      ∧ (ticketsToCreate sampleReq3 sampleCtx 1 100).length = sampleReq3.quantity
      ∧ (ticketsToCreate sampleReq3 sampleCtx 1 100).map Ticket.ticket_number
          = (List.range sampleReq3.quantity).map (fun i => 1 + i)
      ∧ ∀ t ∈ ticketsToCreate sampleReq3 sampleCtx 1 100,
          t.nft_mint_status = MintStatus.pending) :=
  ⟨⟨rfl, rfl, rfl, by decide, by decide, rfl⟩,
    issuance_fresh_event sampleReq3 sampleCtx 100 9 50
      ⟨true, false, true, true⟩ ⟨[], []⟩
      rfl rfl rfl (by decide) (by decide) rfl⟩

/-! C4: successful mint write-back. -/

/-- A fold of whole-table rewrites is the pointwise fold on each row. -/
theorem foldl_map_comm (g : MintItem → Ticket → Ticket) :
    ∀ (l : List MintItem) (ts : List Ticket),
      l.foldl (fun acc it => acc.map (g it)) ts
        = ts.map (fun t => l.foldl (fun u it => g it u) t)
  | [], ts => by simp
  | it :: l, ts => by
    rw [List.foldl_cons, foldl_map_comm g l, List.map_map]
    rfl

theorem foldl_applyMintSuccess_no_match (t : Ticket) :
    ∀ l : List MintItem, (∀ it ∈ l, it.ticketId ≠ t.ticket_id) →
      l.foldl (fun u it => applyMintSuccess it u) t = t
  | [], _ => rfl
  | it :: l, h => by
    have hne : (t.ticket_id == it.ticketId) = false := by
      simp only [beq_eq_false_iff_ne, ne_eq]
      intro hh
      exact h it (List.mem_cons_self it l) hh.symm
    rw [List.foldl_cons, applyMintSuccess, hne]
    simp only [Bool.false_eq_true, if_false]
    exact foldl_applyMintSuccess_no_match t l
      fun x hx => h x (List.mem_cons_of_mem it hx)

/-- When exactly the `j`-th item of the batch references a ticket, the
per-row fold marks it minted and stamps that item's token id. -/
theorem foldl_applyMintSuccess_unique (t : Ticket) :
    ∀ (l : List MintItem) (j : Nat) (hj : j < l.length),
      (l.get ⟨j, hj⟩).ticketId = t.ticket_id →
      (∀ k, (hk : k < l.length) → k ≠ j →
        (l.get ⟨k, hk⟩).ticketId ≠ t.ticket_id) →
      l.foldl (fun u it => applyMintSuccess it u) t
        = { t with nft_mint_status := MintStatus.minted,
                   nft_token_id := some (l.get ⟨j, hj⟩).tokenId }
  | [], j, hj => absurd hj (Nat.not_lt_zero j)
  | it :: l, 0, hj => fun hmatch huniq => by
    have h1 : applyMintSuccess it t
        = { t with nft_mint_status := MintStatus.minted,
                   nft_token_id := some it.tokenId } := by
      rw [applyMintSuccess, if_pos]
      rw [beq_iff_eq]
      exact hmatch.symm
    rw [List.foldl_cons, h1]
    apply foldl_applyMintSuccess_no_match
    intro x hx
    rcases List.mem_iff_get.mp hx with ⟨⟨k, hk⟩, rfl⟩
    have h2 := huniq (k + 1) (Nat.succ_lt_succ hk) (Nat.succ_ne_zero k)
    exact h2
  | it :: l, j + 1, hj => fun hmatch huniq => by
    have hne : (t.ticket_id == it.ticketId) = false := by
      simp only [beq_eq_false_iff_ne, ne_eq]
      intro hh
      exact huniq 0 (Nat.succ_pos _) (Nat.succ_ne_zero j).symm hh.symm
    rw [List.foldl_cons, applyMintSuccess, hne]
    simp only [Bool.false_eq_true, if_false]
    exact foldl_applyMintSuccess_unique t l j (Nat.lt_of_succ_lt_succ hj)
      hmatch
      fun k hk hkj => huniq (k + 1) (Nat.succ_lt_succ hk)
        fun he => hkj (Nat.succ_injective he)

theorem nftMetadataList_length (req : MintRequest) (ctx : EventCtx)
    (start base : Nat) :
    (nftMetadataList req ctx start base).length = req.quantity := by
  rw [nftMetadataList, List.length_map, List.length_range]

theorem nftMetadataList_get (req : MintRequest) (ctx : EventCtx)
    (start base k : Nat)
    (hk : k < (nftMetadataList req ctx start base).length) :
    (nftMetadataList req ctx start base).get ⟨k, hk⟩
      = batchMintItem req ctx start base k := by
  have hkr : k < (List.range req.quantity).length := by
    have h3 := hk
    rw [nftMetadataList_length] at h3
    rw [List.length_range]
    exact h3
  have h1 : (nftMetadataList req ctx start base)[k]?
      = some (batchMintItem req ctx start base k) := by
    rw [nftMetadataList, List.getElem?_map, List.getElem?_eq_getElem hkr,
      List.getElem_range]
    rfl
  have h2 := List.getElem?_eq_getElem hk
  rw [h1] at h2
  exact (Option.some.inj h2).symm

/-- C4: after a successful blockchain batch mint of a handler-built batch,
the row at each position `j` of the inserted tickets is marked minted with
`nft_token_id` equal to the `j`-th entry of the token-id list, and that
token id equals the row's `ticket_number`. -/
theorem mint_success_writeback (req : MintRequest) (ctx : EventCtx)
    (start base : Nat) (ts0 : List Ticket) (j : Nat)
    (hj : j < req.quantity) :
    ((nftMetadataList req ctx start base).map MintItem.tokenId)[j]?
        = some (start + j)
    ∧ ((ticketsToCreate req ctx start base).map Ticket.ticket_number)[j]?
        = some (start + j)
    ∧ (mintToBlockchain (nftMetadataList req ctx start base) true
          (ts0 ++ ticketsToCreate req ctx start base))[ts0.length + j]?
        = some { batchTicket req ctx start base j with
                  nft_mint_status := MintStatus.minted,
                  nft_token_id := some (start + j) } := by
  have hjr : j < (List.range req.quantity).length := by
    rw [List.length_range]; exact hj
  have hget : (List.range req.quantity)[j]? = some j :=
    List.getElem?_eq_getElem hjr ▸ by rw [List.getElem_range]
  refine ⟨?_, ?_, ?_⟩
  · rw [nftMetadataList, List.map_map, List.getElem?_map, hget]
    rfl
  · rw [ticketsToCreate, List.map_map, List.getElem?_map, hget]
    rfl
  · rw [mintToBlockchain, if_pos rfl, foldl_map_comm, List.getElem?_map,
      List.getElem?_append_right (Nat.le_add_right _ _),
      Nat.add_sub_cancel_left, ticketsToCreate, List.getElem?_map, hget]
    simp only [Option.map_some']
    congr 1
    have hlen : j < (nftMetadataList req ctx start base).length := by
      rw [nftMetadataList_length]; exact hj
    rw [foldl_applyMintSuccess_unique (batchTicket req ctx start base j)
      (nftMetadataList req ctx start base) j hlen]
    · rw [nftMetadataList_get]
      rfl
    · rw [nftMetadataList_get]
      rfl
    · intro k hk hkj
      rw [nftMetadataList_get]
      show base + k ≠ base + j
      omega

theorem mint_success_writeback_witness :
    0 < sampleReq.quantity
    ∧ (((nftMetadataList sampleReq sampleCtx 1 100).map MintItem.tokenId)[0]?
          = some (1 + 0)
      ∧ ((ticketsToCreate sampleReq sampleCtx 1 100).map Ticket.ticket_number)[0]?
          = some (1 + 0)
      ∧ (mintToBlockchain (nftMetadataList sampleReq sampleCtx 1 100) true
            (([] : List Ticket) ++ ticketsToCreate sampleReq sampleCtx 1 100))[
              ([] : List Ticket).length + 0]?
          = some { batchTicket sampleReq sampleCtx 1 100 0 with
                    nft_mint_status := MintStatus.minted,
                    nft_token_id := some (1 + 0) }) :=
  ⟨by decide,
    mint_success_writeback sampleReq sampleCtx 1 100 [] 0 (by decide)⟩

/-! C5: failure-path write-back. -/

theorem applyMintFailure_ticket_id (it : MintItem) (t : Ticket) :
    (applyMintFailure it t).ticket_id = t.ticket_id := by
  rw [applyMintFailure]
  split <;> rfl

theorem foldl_applyMintFailure_ticket_id (t : Ticket) :
    ∀ l : List MintItem,
      (l.foldl (fun u it => applyMintFailure it u) t).ticket_id = t.ticket_id
  | [] => rfl
  | it :: l => by
    rw [List.foldl_cons,
      foldl_applyMintFailure_ticket_id (applyMintFailure it t) l]
    exact applyMintFailure_ticket_id it t

theorem foldl_applyMintFailure_failed :
    ∀ (l : List MintItem) (t : Ticket),
      t.nft_mint_status = MintStatus.failed →
      (l.foldl (fun u it => applyMintFailure it u) t).nft_mint_status
        = MintStatus.failed
  | [], _, hf => hf
  | it :: l, t, hf => by
    rw [List.foldl_cons]
    apply foldl_applyMintFailure_failed l
    rw [applyMintFailure]
    split
    · rfl
    · exact hf

/-- Every ticket referenced by some item of the batch ends up failed. -/
theorem foldl_applyMintFailure_referenced :
    ∀ (l : List MintItem) (t : Ticket),
      (∃ it ∈ l, it.ticketId = t.ticket_id) →
      (l.foldl (fun u it => applyMintFailure it u) t).nft_mint_status
        = MintStatus.failed
  | [], _, ⟨it, hit, _⟩ => absurd hit (List.not_mem_nil it)
  | it :: l, t, ⟨x, hx, hxid⟩ => by
    rw [List.foldl_cons]
    rcases List.mem_cons.mp hx with rfl | hx2
    · have h1 : applyMintFailure x t
          = { t with nft_mint_status := MintStatus.failed } := by
        rw [applyMintFailure, if_pos]
        rw [beq_iff_eq]
        exact hxid.symm
      rw [h1]
      exact foldl_applyMintFailure_failed l _ rfl
    · apply foldl_applyMintFailure_referenced l
      exact ⟨x, hx2, by rw [applyMintFailure_ticket_id]; exact hxid⟩

theorem foldl_applyMintFailure_no_match :
    ∀ (l : List MintItem) (t : Ticket),
      (∀ it ∈ l, it.ticketId ≠ t.ticket_id) →
      l.foldl (fun u it => applyMintFailure it u) t = t
  | [], _, _ => rfl
  | it :: l, t, h => by
    have hne : (t.ticket_id == it.ticketId) = false := by
      simp only [beq_eq_false_iff_ne, ne_eq]
      intro hh
      exact h it (List.mem_cons_self it l) hh.symm
    rw [List.foldl_cons, applyMintFailure, hne]
    simp only [Bool.false_eq_true, if_false]
    exact foldl_applyMintFailure_no_match l t
      fun x hx => h x (List.mem_cons_of_mem it hx)

def sampleItem : MintItem :=
  { ticketId := 100, tokenId := 1, metadata := emptyMeta }

def samplePendingTicket : Ticket :=
  { ticket_id := 100, event_id := 5, ticket_number := 1,
    ticket_status := "valid", total_tickets_in_group := none,
    nft_mint_status := .pending, nft_contract_address := some "0xC",
    nft_token_id := none, nft_metadata := emptyMeta }

def sampleJob : MintJob :=
  { job_id := 1, event_id := 5, ticket_data := [sampleItem],
    status := .pending, retry_count := none, error_message := none,
    created_at := 0, processed_at := none }

/-- C5 counterexample: a failed `mintToBlockchain` run sets the referenced
ticket to failed but leaves the `mint_queue` row fully untouched — the
job keeps `status = pending` and `error_message = null`; no
`markFailed(job_id, message)` happens anywhere in the minter. -/
theorem mint_failure_queue_untouched :
    (mintToBlockchainStore [sampleItem] false
        { tickets := [samplePendingTicket], queue := [sampleJob] }).queue
      = [sampleJob]
    ∧ sampleJob.status = JobStatus.pending
    ∧ sampleJob.error_message = none
    ∧ (mintToBlockchainStore [sampleItem] false
        { tickets := [samplePendingTicket], queue := [sampleJob] }).tickets.map
      Ticket.nft_mint_status = [MintStatus.failed] :=
  ⟨rfl, rfl, rfl, rfl⟩

/-- C5 (amended): on a failed mint attempt the minter sets every
referenced ticket's `nft_mint_status` to failed (none is left or moved to
minted), leaves unreferenced tickets unchanged, and performs no queue
write at all: the `mint_queue` rows — and so any job's status and error
message — are exactly as before the attempt. -/
theorem mint_failure_writeback (items : List MintItem) (s : Store)
    (t : Ticket) (ht : t ∈ (mintToBlockchainStore items false s).tickets) :
    (mintToBlockchainStore items false s).queue = s.queue
    ∧ ((∃ it ∈ items, it.ticketId = t.ticket_id) →
        t.nft_mint_status = MintStatus.failed)
    ∧ ((∀ it ∈ items, it.ticketId ≠ t.ticket_id) → t ∈ s.tickets) := by
  have hmap : (mintToBlockchainStore items false s).tickets
      = s.tickets.map
          (fun u => items.foldl (fun v it => applyMintFailure it v) u) := by
    show mintToBlockchain items false s.tickets = _
    rw [mintToBlockchain]
    simp only [Bool.false_eq_true, if_false]
    exact foldl_map_comm applyMintFailure items s.tickets
  rw [hmap] at ht
  rcases List.mem_map.mp ht with ⟨u, hu, rfl⟩
  refine ⟨rfl, ?_, ?_⟩
  · intro hex
    apply foldl_applyMintFailure_referenced items u
    rcases hex with ⟨it, hit, hid⟩
    rw [foldl_applyMintFailure_ticket_id] at hid
    exact ⟨it, hit, hid⟩
  · intro hno
    rw [foldl_applyMintFailure_no_match items u]
    · exact hu
    · intro it hit
      have hh := hno it hit
      rw [foldl_applyMintFailure_ticket_id] at hh
      exact hh

theorem mint_failure_writeback_witness :
    ({ samplePendingTicket with nft_mint_status := MintStatus.failed }
        ∈ (mintToBlockchainStore [sampleItem] false
            { tickets := [samplePendingTicket], queue := [sampleJob] }).tickets)
    ∧ ((mintToBlockchainStore [sampleItem] false
          { tickets := [samplePendingTicket], queue := [sampleJob] }).queue
        = [sampleJob]
      ∧ ((∃ it ∈ [sampleItem], it.ticketId
            = ({ samplePendingTicket with
                  nft_mint_status := MintStatus.failed } : Ticket).ticket_id) →
          ({ samplePendingTicket with
              nft_mint_status := MintStatus.failed } : Ticket).nft_mint_status
            = MintStatus.failed)
      ∧ ((∀ it ∈ [sampleItem], it.ticketId
            ≠ ({ samplePendingTicket with
                  nft_mint_status := MintStatus.failed } : Ticket).ticket_id) →
          ({ samplePendingTicket with
              nft_mint_status := MintStatus.failed } : Ticket)
            ∈ [samplePendingTicket])) :=
  ⟨by decide,
    mint_failure_writeback [sampleItem]
      { tickets := [samplePendingTicket], queue := [sampleJob] }
      { samplePendingTicket with nft_mint_status := MintStatus.failed }
      (by decide)⟩

end TicketingDB
